import Mathlib

/-!
Verification development for the txova-go-validation library.

This file gives a shallow embedding of the struct-validation core of the
repository: the runtime value model used by the reflection-driven validator,
the custom rule predicates (mz_phone, mz_plate, mz_location, txova_pin,
txova_money, txova_rating), the error translator, the field-name resolver,
and the structured error model with its wire serialization.

Modelling conventions:
* Go `float64` values are embedded as rationals (`ℚ`); all comparisons the
  code performs on coordinates are order comparisons on decimal literals,
  which the rational embedding reflects exactly at every input considered
  here.  Rational constants are written with `mkRat` so they evaluate.
* Go `int` is the 64-bit platform integer; signed integer fields carry the
  value returned by `reflect.Value.Int()` (an `int64`, embedded as `Int`)
  and unsigned fields the value returned by `reflect.Value.Uint()` (a
  `uint64`, embedded as `Nat`, with the bound `n < 2^64` stated explicitly
  where a proof needs it).  Arithmetic that can overflow in Go is modelled
  with an explicit wrap at `2^64`.
* Fallible Go functions returning `error` are modelled as `Option`-valued
  functions (`none` = nil error); a Go panic is modelled as `none` in an
  `Option`-valued result.
-/

set_option maxRecDepth 8000

/-- Signed integer widths of the Go reflect kinds Int, Int8 ... Int64. -/
inductive IW where
  | i | i8 | i16 | i32 | i64
deriving DecidableEq

/-- Unsigned integer widths of the Go reflect kinds Uint, Uint8 ... Uint64. -/
inductive UW where
  | u | u8 | u16 | u32 | u64
deriving DecidableEq

/-- The subset of `reflect.Kind` the validation core dispatches on. -/
inductive GoKind where
  | string | int (w : IW) | uint (w : UW) | float32 | float64
  | struct | slice | array | other
deriving DecidableEq

/-- Runtime values as seen through `reflect.Value` / `interface{}`.

`str` is a value whose dynamic type is exactly `string`; `namedStr` is a
value of a defined type whose underlying type is `string` (its reflect kind
is `String`, but a type assertion `value.(string)` on it fails).  Signed
integer fields carry the `Int()` reflection of their value, unsigned fields
the `Uint()` reflection.  `strukt` is a struct given by its (name, value)
fields, `slice`/`array` an ordered sequence of element values. -/
inductive GoVal where
  | str (s : String)
  | namedStr (s : String)
  | int (w : IW) (n : Int)
  | uint (w : UW) (n : Nat)
  | float64V (q : ℚ)
  | float32V (q : ℚ)
  | strukt (fields : List (String × GoVal))
  | slice (elems : List GoVal)
  | array (elems : List GoVal)
  | other

/-- The `reflect.Kind` of a value. -/
def GoVal.kind : GoVal → GoKind
  | .str _ => .string
  | .namedStr _ => .string
  | .int w _ => .int w
  | .uint w _ => .uint w
  | .float64V _ => .float64
  | .float32V _ => .float32
  | .strukt _ => .struct
  | .slice _ => .slice
  | .array _ => .array
  | .other => .other

/-- Short name of a kind, used by `reflect.Value.String` on non-strings. -/
def GoKind.name : GoKind → String
  | .string => "string"
  | .int _ => "int"
  | .uint _ => "uint"
  | .float32 => "float32"
  | .float64 => "float64"
  | .struct => "struct"
  | .slice => "slice"
  | .array => "array"
  | .other => "invalid"

/-- Model of `reflect.Value.String()`: the string content for string-kinded
values, and a `"<T Value>"` placeholder (never the empty string) otherwise. -/
def GoVal.reflString : GoVal → String
  | .str s => s
  | .namedStr s => s
  | v => "<" ++ v.kind.name ++ " Value>"

/-- Go `len(s)`: the byte length of a string. -/
def goLen (s : String) : Int := (s.utf8ByteSize : Int)

/-- Model of `strings.SplitN(s, ",", 2)[0]`: the part of `s` before its
first comma (all of `s` when it has no comma). -/
def firstCommaPart (s : String) : String :=
  String.mk (s.data.takeWhile (fun c => c != ','))

/-- Model of `strings.TrimSpace`: strip leading and trailing whitespace. -/
def goTrimSpace (s : String) : String :=
  String.mk (((s.data.dropWhile Char.isWhitespace).reverse.dropWhile
    Char.isWhitespace).reverse)

/-- Model of `strings.HasPrefix s p` for a literal given as a char list. -/
def goHasPrefixChars (s : String) (p : List Char) : Bool :=
  s.data.take p.length == p

/-- Model of `strings.Split(s, " ")`: split on every single space. -/
def splitSpaces (s : String) : List String :=
  (s.data.foldr
    (fun c acc =>
      if c = ' ' then [] :: acc
      else
        match acc with
        | [] => [[c]]
        | g :: gs => (c :: g) :: gs)
    [[]]).map String.mk

/-- Two's-complement wrap of an integer into the 64-bit signed range,
modelling overflow of Go `int` arithmetic on a 64-bit platform. -/
def wrap64 (n : Int) : Int :=
  if n % (2 ^ 64) < 2 ^ 63 then n % (2 ^ 64) else n % (2 ^ 64) - 2 ^ 64

/-- Go conversion `int(u)` of a `uint64` value `u < 2^64` to the 64-bit
platform `int`. -/
def int64OfUInt64 (n : Nat) : Int :=
  if n < 2 ^ 63 then (n : Int) else (n : Int) - 2 ^ 64

/-- Source `parseIntParam` (identical in both versions of the struct
package): fold over the characters, and for every decimal digit multiply
the accumulator by ten and add the digit, in Go `int` arithmetic (which
wraps at 64 bits); non-digits are skipped, and the result is 0 when the
string has no digits. -/
def parseIntParam (s : String) : Int :=
  s.data.foldl
    (fun n c =>
      if '0' ≤ c && c ≤ '9' then wrap64 (n * 10 + ((c.toNat : Int) - '0'.toNat)) else n)
    0

/-- The exact (unbounded) non-negative integer formed by concatenating, in
order, the decimal digit characters of a string.  This definition follows
the words of the specification for the parameter parser and is compared
against the source-derived `parseIntParam`. -/
def specDigitsValue (s : String) : Nat :=
  s.data.foldl
    (fun n c => if '0' ≤ c && c ≤ '9' then n * 10 + (c.toNat - '0'.toNat) else n)
    0

namespace Valerrors

/-- The closed enumeration of error codes of the errors package. -/
inductive ErrorCode where
  | required | invalidFormat | outOfRange | tooShort | tooLong
  | invalidOption | outsideServiceArea
deriving DecidableEq

/-- Modelled from the spec: the wire strings of the error codes, pinned by
`src/errors/errors_test.go` (`TestErrorCodes`). -/
def ErrorCode.toWire : ErrorCode → String
  | .required => "REQUIRED"
  | .invalidFormat => "INVALID_FORMAT"
  | .outOfRange => "OUT_OF_RANGE"
  | .tooShort => "TOO_SHORT"
  | .tooLong => "TOO_LONG"
  | .invalidOption => "INVALID_OPTION"
  | .outsideServiceArea => "OUTSIDE_SERVICE_AREA"

/-- An `interface{}` argument of the message-building constructors: the
translator passes strings (rule parameters, "∞", "-∞") and ints; the geo
package passes floats. -/
inductive FmtArg where
  | str (s : String)
  | int (n : Int)
  | rat (q : ℚ)
deriving DecidableEq

/-- Fixed-point rendering of a rational with six decimal places, used for
the "<lat>, <lon>" offending-value strings (spec: coordinates formatted to
six decimal places). -/
def ratToDecimal6 (q : ℚ) : String :=
  let sgn := if q < 0 then "-" else ""
  let n : Nat := (Int.floor (|q| * 1000000 + mkRat 1 2)).toNat
  let ip := n / 1000000
  let fp := n % 1000000
  let fs := toString fp
  sgn ++ toString ip ++ "." ++ String.mk (List.replicate (6 - fs.length) '0') ++ fs

/-- Modelled from the spec: rendering of an `interface{}` argument inside a
message (`%v`).  No theorem below depends on the rendering of rationals;
strings and integers render as in Go. -/
def FmtArg.render : FmtArg → String
  | .str s => s
  | .int n => toString n
  | .rat q => ratToDecimal6 q

/-- Modelled from the spec: one structured validation failure of the errors
package (`{field, code, message, value?}`); the package source is not under
src/, so the structure and its constructors below follow spec §4.1 and the
behaviour pinned by `src/errors/errors_test.go`. -/
structure ValidationError where
  Field : String
  Code : ErrorCode
  Message : String
  Value : Option GoVal

/-- Modelled from the spec: `errors.New(field, code, message)`. -/
def New (field : String) (code : ErrorCode) (message : String) : ValidationError :=
  ⟨field, code, message, none⟩

/-- Modelled from the spec: `Required(field)`, message "<field> is required". -/
def Required (field : String) : ValidationError :=
  ⟨field, .required, field ++ " is required", none⟩

/-- Modelled from the spec: `InvalidFormatWithValue`, message
"<field> has invalid format, expected <expected>". -/
def InvalidFormatWithValue (field expected : String) (value : GoVal) : ValidationError :=
  ⟨field, .invalidFormat, field ++ " has invalid format, expected " ++ expected, some value⟩

/-- Modelled from the spec: `OutOfRangeWithValue`, message
"<field> must be between <min> and <max>". -/
def OutOfRangeWithValue (field : String) (lo hi : FmtArg) (value : GoVal) : ValidationError :=
  ⟨field, .outOfRange,
    field ++ " must be between " ++ lo.render ++ " and " ++ hi.render, some value⟩

/-- Modelled from the spec: `TooShortWithValue`, message
"<field> must be at least <minLen> characters". -/
def TooShortWithValue (field : String) (minLen actual : Int) : ValidationError :=
  ⟨field, .tooShort, field ++ " must be at least " ++ toString minLen ++ " characters",
    some (GoVal.int IW.i actual)⟩

/-- Modelled from the spec: `TooLongWithValue`, message
"<field> must be at most <maxLen> characters". -/
def TooLongWithValue (field : String) (maxLen actual : Int) : ValidationError :=
  ⟨field, .tooLong, field ++ " must be at most " ++ toString maxLen ++ " characters",
    some (GoVal.int IW.i actual)⟩

/-- Modelled from the spec: `InvalidOptionWithValue`, message
"<field> must be one of: <options joined by comma-space>". -/
def InvalidOptionWithValue (field : String) (options : List String) (value : GoVal) :
    ValidationError :=
  ⟨field, .invalidOption, field ++ " must be one of: " ++ String.intercalate ", " options,
    some value⟩

/-- Modelled from the spec: `OutsideServiceArea(field)`, message
"<field> is outside the service area". -/
def OutsideServiceArea (field : String) : ValidationError :=
  ⟨field, .outsideServiceArea, field ++ " is outside the service area", none⟩

/-- Modelled from the spec: `OutsideServiceAreaWithValue`, offending value
"<lat>, <lon>" with six decimal places. -/
def OutsideServiceAreaWithValue (field : String) (lat lon : ℚ) : ValidationError :=
  ⟨field, .outsideServiceArea, field ++ " is outside the service area",
    some (GoVal.str (ratToDecimal6 lat ++ ", " ++ ratToDecimal6 lon))⟩

end Valerrors

namespace Geo

/-- Mozambique bounding box, `src/geo/geo.go`: MozambiqueMinLat = -26.9. -/
def MozambiqueMinLat : ℚ := mkRat (-269) 10

/-- Mozambique bounding box: MozambiqueMaxLat = -10.3. -/
def MozambiqueMaxLat : ℚ := mkRat (-103) 10

/-- Mozambique bounding box: MozambiqueMinLon = 30.2. -/
def MozambiqueMinLon : ℚ := mkRat 302 10

/-- Mozambique bounding box: MozambiqueMaxLon = 41.0. -/
def MozambiqueMaxLon : ℚ := mkRat 41 1

/-- Global latitude lower bound (txova-go-types geo.MinLatitude = -90,
documented on `ValidateCoordinates` in `src/geo/geo.go`). -/
def MinLatitude : ℚ := mkRat (-90) 1

/-- Global latitude upper bound (= 90). -/
def MaxLatitude : ℚ := mkRat 90 1

/-- Global longitude lower bound (= -180). -/
def MinLongitude : ℚ := mkRat (-180) 1

/-- Global longitude upper bound (= 180). -/
def MaxLongitude : ℚ := mkRat 180 1

/-- Source `geo.ValidateCoordinates`: latitude must lie in [-90, 90] and
longitude in [-180, 180]. -/
def ValidateCoordinates (lat lon : ℚ) : Option Valerrors.ValidationError :=
  if lat < MinLatitude ∨ lat > MaxLatitude then
    some (Valerrors.OutOfRangeWithValue "latitude" (.rat MinLatitude) (.rat MaxLatitude)
      (GoVal.float64V lat))
  else if lon < MinLongitude ∨ lon > MaxLongitude then
    some (Valerrors.OutOfRangeWithValue "longitude" (.rat MinLongitude) (.rat MaxLongitude)
      (GoVal.float64V lon))
  else none

/-- Source `geo.ValidateInMozambique`: global ranges first, then the
Mozambique bounding box. -/
def ValidateInMozambique (lat lon : ℚ) : Option Valerrors.ValidationError :=
  match ValidateCoordinates lat lon with
  | some e => some e
  | none =>
    if lat < MozambiqueMinLat ∨ lat > MozambiqueMaxLat ∨
        lon < MozambiqueMinLon ∨ lon > MozambiqueMaxLon then
      some (Valerrors.OutsideServiceAreaWithValue "location" lat lon)
    else none

end Geo

namespace Phone

/-- Valid Mozambique mobile prefixes, `src/phone/phone.go`. -/
def validMobileCodes : List String := ["82", "83", "84", "85", "86", "87"]

/-- Keep only the decimal digits of a string (the `\D`-removal of
`phone.Normalize`). -/
def stripNonDigits (s : String) : String :=
  String.mk (s.data.filter (fun c => '0' ≤ c && c ≤ '9'))

/-- Source `phone.Normalize`: accepts local 9-digit numbers, 258-prefixed
12-digit numbers, + international numbers and 00258-prefixed numbers, then
checks the two-digit mobile prefix; returns the normalized +258XXXXXXXXX
form, or `none` for the `contact.ErrInvalid...` errors. -/
def Normalize (input : String) : Option String :=
  if input = "" then none
  else
    let hasPlus := goHasPrefixChars (goTrimSpace input) ['+']
    let digits := stripNonDigits input
    if digits = "" then none
    else
      let localNumber? : Option String :=
        if digits.length == 9 then some digits
        else if digits.length == 12 && goHasPrefixChars digits ['2', '5', '8'] then
          some (digits.drop 3)
        else if digits.length == 12 && hasPlus then
          if goHasPrefixChars digits ['2', '5', '8'] then some (digits.drop 3) else none
        else if digits.length == 14 && goHasPrefixChars digits ['0', '0', '2', '5', '8'] then
          some (digits.drop 5)
        else none
      match localNumber? with
      | none => none
      | some localNumber =>
        if localNumber.length != 9 then none
        else if validMobileCodes.contains (localNumber.take 2) then
          some ("+258" ++ localNumber)
        else none

/-- Source `phone.Validate`: true iff `Normalize` succeeds. -/
def Validate (input : String) : Bool := (Normalize input).isSome

end Phone

namespace Ride

/-- Modelled from the spec: txova-go-types `ride.ParsePIN` is not under
src/; per spec §8 it rejects exactly the non-4-digit strings, strictly
ascending or strictly descending 4-digit runs, and all-identical-digit
runs, and accepts any other 4-digit numeric string. -/
def pinOk (s : String) : Bool :=
  match s.data with
  | [a, b, c, d] =>
    (a.isDigit && b.isDigit && c.isDigit && d.isDigit) &&
    !(b.toNat == a.toNat + 1 && c.toNat == b.toNat + 1 && d.toNat == c.toNat + 1) &&
    !(a.toNat == b.toNat + 1 && b.toNat == c.toNat + 1 && c.toNat == d.toNat + 1) &&
    !(a == b && b == c && c == d)
  | _ => false

/-- Source `ride.ValidatePIN`: wraps the parse failure into an
InvalidFormat validation error. -/
def ValidatePIN (input : String) : Option Valerrors.ValidationError :=
  if pinOk input then none
  else some (Valerrors.InvalidFormatWithValue "pin" "4-digit PIN (no sequential or repeated)"
    (GoVal.str input))

end Ride

namespace Vehicle

/-- Province codes accepted on Mozambique plates (pinned by
`src/vehicle`'s tests). -/
def provinceCodes : List String :=
  ["MC", "MP", "GZ", "IB", "SF", "MN", "TT", "ZB", "NP", "CA", "NS"]

/-- Modelled from the spec: the vehicle package source is not under src/;
per the usage guide and its tests, a plate is valid iff after uppercasing
and removing dashes and spaces it is either the standard form (three
letters, three digits, province code) or the old form (province code, four
digits). -/
def plateOk (s : String) : Bool :=
  let cs := (s.data.map Char.toUpper).filter (fun c => c != '-' && c != ' ')
  (cs.length == 8 && (cs.take 3).all Char.isAlpha &&
    ((cs.drop 3).take 3).all Char.isDigit &&
    provinceCodes.contains (String.mk (cs.drop 6))) ||
  (cs.length == 6 && provinceCodes.contains (String.mk (cs.take 2)) &&
    (cs.drop 2).all Char.isDigit)

/-- Modelled from the spec: `vehicle.ValidatePlate`, nil iff the plate
parses. -/
def ValidatePlate (input : String) : Option Valerrors.ValidationError :=
  if plateOk input then none
  else some (Valerrors.InvalidFormatWithValue "plate" "valid Mozambique license plate"
    (GoVal.str input))

end Vehicle

namespace Rating

/-- Modelled from the spec: txova-go-types rating.MinRating = 1 (pinned by
`src/rating/rating_test.go`). -/
def MinRating : Int := 1

/-- Modelled from the spec: txova-go-types rating.MaxRating = 5. -/
def MaxRating : Int := 5

/-- Modelled from the spec: txova-go-types `rating.NewRating` succeeds iff
the value lies in the inclusive range 1..5. -/
def newRatingOk (value : Int) : Bool :=
  decide (MinRating ≤ value ∧ value ≤ MaxRating)

/-- Source `rating.ValidateRating`: nil iff `NewRating` succeeds, otherwise
an OutOfRange error over [MinRating, MaxRating]. -/
def ValidateRating (value : Int) : Option Valerrors.ValidationError :=
  if newRatingOk value then none
  else some (Valerrors.OutOfRangeWithValue "rating" (.int MinRating) (.int MaxRating)
    (GoVal.int IW.i value))

end Rating

namespace Structval

/-- The field-name resolver registered by `initValidator` via
`RegisterTagNameFunc`: the part of the json tag before the first comma,
unless it is the opt-out sentinel "-" or empty, in which case the struct
field's own name is used.  `jsonTag` is `fld.Tag.Get("json")` and
`fldName` is `fld.Name`. -/
def tagNameFunc (jsonTag fldName : String) : String :=
  let name := firstCommaPart jsonTag
  if name = "-" then fldName
  else if name = "" then fldName
  else name

/-- Source `validateMzPhone`: empty is valid (presence is the required
rule's job), otherwise delegate to `phone.Validate`. -/
def validateMzPhone (v : GoVal) : Bool :=
  let value := v.reflString
  if value = "" then true
  else Phone.Validate value

/-- Source `validateMzPlate`: empty is valid, otherwise delegate to
`vehicle.ValidatePlate`. -/
def validateMzPlate (v : GoVal) : Bool :=
  let value := v.reflString
  if value = "" then true
  else (Vehicle.ValidatePlate value).isNone

/-- Source `validateTxovaPin`: empty is valid, otherwise delegate to
`ride.ValidatePIN`. -/
def validateTxovaPin (v : GoVal) : Bool :=
  let value := v.reflString
  if value = "" then true
  else (Ride.ValidatePIN value).isNone

/-- Source `validateTxovaMoney`: strictly positive over every signed,
unsigned and floating kind; any other kind fails. -/
def validateTxovaMoney (v : GoVal) : Bool :=
  match v with
  | .int _ n => decide (n > 0)
  | .uint _ n => decide (n > 0)
  | .float64V q => decide (q > 0)
  | .float32V q => decide (q > 0)
  | _ => false

/-- Source `validateLocationStruct`: resolve the latitude under the first
of Lat, Latitude, lat, latitude that is a present field of Float64 kind,
the longitude likewise under Lon, Lng, Longitude, lon, lng, longitude, and
check the Mozambique bounding box; fail when either is missing. -/
def validateLocationStruct (fields : List (String × GoVal)) : Bool :=
  let lat? := ["Lat", "Latitude", "lat", "latitude"].findSome?
    (fun name =>
      match fields.lookup name with
      | some (GoVal.float64V q) => some q
      | _ => none)
  let lon? := ["Lon", "Lng", "Longitude", "lon", "lng", "longitude"].findSome?
    (fun name =>
      match fields.lookup name with
      | some (GoVal.float64V q) => some q
      | _ => none)
  match lat?, lon? with
  | some lat, some lon => (Geo.ValidateInMozambique lat lon).isNone
  | _, _ => false

/-- Source `validateLocationSlice`: a sequence of length at least two whose
first two elements are Float64-kinded, checked against the bounding box. -/
def validateLocationSlice (elems : List GoVal) : Bool :=
  if elems.length < 2 then false
  else
    match elems with
    | lat :: lon :: _ =>
      match lat, lon with
      | GoVal.float64V la, GoVal.float64V lo => (Geo.ValidateInMozambique la lo).isNone
      | _, _ => false
    | _ => false

/-- Source `validateMzLocation`: dispatch on the value's kind — struct,
slice or array; any other kind fails closed. -/
def validateMzLocation (v : GoVal) : Bool :=
  match v with
  | .strukt fields => validateLocationStruct fields
  | .slice elems => validateLocationSlice elems
  | .array elems => validateLocationSlice elems
  | _ => false

/-- Source `validateTxovaRating` of `src/unnamed/part_004`: bounds-check
the wide value before narrowing (signed values outside [0,5] and unsigned
values above 5 fail), then delegate to `rating.ValidateRating`. -/
def validateTxovaRating (v : GoVal) : Bool :=
  match v with
  | .int _ n => if n < 0 ∨ n > 5 then false else (Rating.ValidateRating n).isNone
  | .uint _ n => if n > 5 then false else (Rating.ValidateRating ((n : Nat) : Int)).isNone
  | _ => false

end Structval

/-- A generic per-field failure record of the validation engine, as
consumed by the error translator: display field name, rule tag, rule
parameter, and the offending value (whose reflect kind is
`value.kind`). -/
structure FieldError where
  field : String
  tag : String
  param : String
  value : GoVal

namespace Structval

/-- Source `formatTagExpectations`: the static tag-to-expectation table. -/
def formatTagExpectations (tag : String) : Option String :=
  if tag = "email" then some "valid email address"
  else if tag = "url" then some "valid URL"
  else if tag = "mz_phone" then some "valid Mozambique phone number"
  else if tag = "mz_plate" then some "valid Mozambique license plate"
  else if tag = "txova_pin" then some "4-digit PIN (no sequential or repeated)"
  else none

/-- Source `isLowerBoundTag`. -/
def isLowerBoundTag (tag : String) : Bool := tag == "gt" || tag == "gte"

/-- Source `isUpperBoundTag`. -/
def isUpperBoundTag (tag : String) : Bool := tag == "lt" || tag == "lte"

/-- Source `translateMinTag`: on a String-kinded field whose value's
dynamic type is exactly `string`, TooShort with the parsed parameter and
the actual byte length; otherwise OutOfRange (param, ∞). -/
def translateMinTag (fe : FieldError) : Valerrors.ValidationError :=
  let param := fe.param
  if fe.value.kind = GoKind.string then
    match fe.value with
    | GoVal.str s => Valerrors.TooShortWithValue fe.field (parseIntParam param) (goLen s)
    | _ => Valerrors.OutOfRangeWithValue fe.field (.str param) (.str "∞") fe.value
  else Valerrors.OutOfRangeWithValue fe.field (.str param) (.str "∞") fe.value

/-- Source `translateMaxTag`: symmetric to `translateMinTag` with TooLong
and OutOfRange (-∞, param). -/
def translateMaxTag (fe : FieldError) : Valerrors.ValidationError :=
  let param := fe.param
  if fe.value.kind = GoKind.string then
    match fe.value with
    | GoVal.str s => Valerrors.TooLongWithValue fe.field (parseIntParam param) (goLen s)
    | _ => Valerrors.OutOfRangeWithValue fe.field (.str "-∞") (.str param) fe.value
  else Valerrors.OutOfRangeWithValue fe.field (.str "-∞") (.str param) fe.value

/-- Source `translateSpecialTag`: the tags that need the parameter or a
custom code. -/
def translateSpecialTag (fe : FieldError) : Option Valerrors.ValidationError :=
  if fe.tag = "required" then some (Valerrors.Required fe.field)
  else if fe.tag = "min" then some (translateMinTag fe)
  else if fe.tag = "max" then some (translateMaxTag fe)
  else if fe.tag = "len" then
    some (Valerrors.InvalidFormatWithValue fe.field ("length " ++ fe.param) fe.value)
  else if fe.tag = "oneof" then
    some (Valerrors.InvalidOptionWithValue fe.field (splitSpaces fe.param) fe.value)
  else if fe.tag = "mz_location" then some (Valerrors.OutsideServiceArea fe.field)
  else if fe.tag = "txova_money" then
    some (Valerrors.OutOfRangeWithValue fe.field (.int 1) (.str "∞") fe.value)
  else if fe.tag = "txova_rating" then
    some (Valerrors.OutOfRangeWithValue fe.field (.int 1) (.int 5) fe.value)
  else none

/-- Source `translateError` of `src/unnamed/part_004`: special tags first,
then the static format table, then the range tags, then the InvalidFormat
fallback carrying the raw tag. -/
def translateError (fe : FieldError) : Valerrors.ValidationError :=
  match translateSpecialTag fe with
  | some ve => ve
  | none =>
    match formatTagExpectations fe.tag with
    | some expected => Valerrors.InvalidFormatWithValue fe.field expected fe.value
    | none =>
      if isLowerBoundTag fe.tag then
        Valerrors.OutOfRangeWithValue fe.field (.str fe.param) (.str "∞") fe.value
      else if isUpperBoundTag fe.tag then
        Valerrors.OutOfRangeWithValue fe.field (.str "-∞") (.str fe.param) fe.value
      else Valerrors.InvalidFormatWithValue fe.field fe.tag fe.value

end Structval

namespace StructvalOld

/-- Source `validateTxovaRating` of `src/unnamed/part_003`: narrow with a
plain Go conversion (no bounds check) and delegate to
`rating.ValidateRating`; `int(field.Uint())` wraps a uint64 value into the
signed 64-bit range. -/
def validateTxovaRating (v : GoVal) : Bool :=
  match v with
  | .int _ n => (Rating.ValidateRating n).isNone
  | .uint _ n => (Rating.ValidateRating (int64OfUInt64 n)).isNone
  | _ => false

/-- Source `translateError` of `src/unnamed/part_003`: one switch over the
tag.  The min and max branches on a String-kinded field perform the
unchecked type assertion `value.(string)`, which panics when the value's
dynamic type is a named string type; the panic is modelled as `none`. -/
def translateError (fe : FieldError) : Option Valerrors.ValidationError :=
  if fe.tag = "required" then some (Valerrors.Required fe.field)
  else if fe.tag = "min" then
    if fe.value.kind = GoKind.string then
      match fe.value with
      | GoVal.str s =>
        some (Valerrors.TooShortWithValue fe.field (parseIntParam fe.param) (goLen s))
      | _ => none
    else some (Valerrors.OutOfRangeWithValue fe.field (.str fe.param) (.str "∞") fe.value)
  else if fe.tag = "max" then
    if fe.value.kind = GoKind.string then
      match fe.value with
      | GoVal.str s =>
        some (Valerrors.TooLongWithValue fe.field (parseIntParam fe.param) (goLen s))
      | _ => none
    else some (Valerrors.OutOfRangeWithValue fe.field (.str "-∞") (.str fe.param) fe.value)
  else if fe.tag = "len" then
    some (Valerrors.InvalidFormatWithValue fe.field ("length " ++ fe.param) fe.value)
  else if fe.tag = "email" then
    some (Valerrors.InvalidFormatWithValue fe.field "valid email address" fe.value)
  else if fe.tag = "url" then
    some (Valerrors.InvalidFormatWithValue fe.field "valid URL" fe.value)
  else if fe.tag = "oneof" then
    some (Valerrors.InvalidOptionWithValue fe.field (splitSpaces fe.param) fe.value)
  else if fe.tag = "gt" ∨ fe.tag = "gte" then
    some (Valerrors.OutOfRangeWithValue fe.field (.str fe.param) (.str "∞") fe.value)
  else if fe.tag = "lt" ∨ fe.tag = "lte" then
    some (Valerrors.OutOfRangeWithValue fe.field (.str "-∞") (.str fe.param) fe.value)
  else if fe.tag = "mz_phone" then
    some (Valerrors.InvalidFormatWithValue fe.field "valid Mozambique phone number" fe.value)
  else if fe.tag = "mz_plate" then
    some (Valerrors.InvalidFormatWithValue fe.field "valid Mozambique license plate" fe.value)
  else if fe.tag = "mz_location" then some (Valerrors.OutsideServiceArea fe.field)
  else if fe.tag = "txova_pin" then
    some (Valerrors.InvalidFormatWithValue fe.field
      "4-digit PIN (no sequential or repeated)" fe.value)
  else if fe.tag = "txova_money" then
    some (Valerrors.OutOfRangeWithValue fe.field (.int 1) (.str "∞") fe.value)
  else if fe.tag = "txova_rating" then
    some (Valerrors.OutOfRangeWithValue fe.field (.int 1) (.int 5) fe.value)
  else some (Valerrors.InvalidFormatWithValue fe.field fe.tag fe.value)

end StructvalOld

/-- JSON values for the wire-format contract. -/
inductive Json where
  | null
  | bool (b : Bool)
  | num (q : ℚ)
  | str (s : String)
  | arr (elems : List Json)
  | obj (fields : List (String × Json))

/-- Modelled from the spec: encoding/json rendering of a captured
offending value.  Only the presence of the value is relied upon by the
wire contract; scalars render as themselves, composites recursively. -/
def GoVal.toJson : GoVal → Json
  | .str s => .str s
  | .namedStr s => .str s
  | .int _ n => .num (n : ℚ)
  | .uint _ n => .num (n : ℚ)
  | .float64V q => .num q
  | .float32V q => .num q
  | .strukt fields => .obj (fields.attach.map (fun p => (p.1.1, p.1.2.toJson)))
  | .slice elems => .arr (elems.attach.map (fun e => e.1.toJson))
  | .array elems => .arr (elems.attach.map (fun e => e.1.toJson))
  | .other => .null
decreasing_by
  · obtain ⟨⟨a, b⟩, hm⟩ := p
    have h := List.sizeOf_lt_of_mem hm
    simp at h ⊢
    omega
  · obtain ⟨e1, hm⟩ := e
    have h := List.sizeOf_lt_of_mem hm
    simp at h ⊢
    omega
  · obtain ⟨e1, hm⟩ := e
    have h := List.sizeOf_lt_of_mem hm
    simp at h ⊢
    omega

namespace Valerrors

/-- Modelled from the spec: JSON object for one ValidationError — keys
field, code and message always, and value only when an offending value was
captured (struct tag `json:"value,omitempty"`: key absence, not null). -/
def ValidationError.marshalJSON (e : ValidationError) : Json :=
  Json.obj
    ([("field", Json.str e.Field), ("code", Json.str e.Code.toWire),
      ("message", Json.str e.Message)] ++
      (match e.Value with
       | some v => [("value", v.toJson)]
       | none => []))

/-- Modelled from the spec: `ValidationErrors.MarshalJSON` serializes the
collection as a JSON array of the entries; a nil or empty collection
(both are the empty list here) yields the empty array, never null. -/
def marshalValidationErrors (es : List ValidationError) : Json :=
  Json.arr (es.map ValidationError.marshalJSON)

end Valerrors

/-- The keys of a JSON object (empty for non-objects). -/
def Json.objKeys : Json → List String
  | .obj fields => fields.map Prod.fst
  | _ => []

/-- The rule tags for which the part_004 translator has a specific mapping;
every other tag reaches the InvalidFormat fallback. -/
def mappedTags : List String :=
  ["required", "min", "max", "len", "oneof", "email", "url", "gt", "gte", "lt", "lte",
   "mz_phone", "mz_plate", "mz_location", "txova_pin", "txova_money", "txova_rating"]

/-- The reflect-level invariant of unsigned fields: `Uint()` returns a
`uint64`, so the carried natural number is below `2^64`; trivial for every
other shape. -/
def uintInRange : GoVal → Prop
  | .uint _ n => n < 2 ^ 64
  | _ => True

lemma validateRating_isNone (n : Int) :
    (Rating.ValidateRating n).isNone = decide (1 ≤ n ∧ n ≤ 5) := by
  unfold Rating.ValidateRating
  split <;> rename_i h <;> simp_all [Rating.newRatingOk, Rating.MinRating, Rating.MaxRating]

lemma validateCoordinates_eq_none (lat lon : ℚ)
    (h1 : ¬(lat < Geo.MinLatitude ∨ lat > Geo.MaxLatitude))
    (h2 : ¬(lon < Geo.MinLongitude ∨ lon > Geo.MaxLongitude)) :
    Geo.ValidateCoordinates lat lon = none := by
  unfold Geo.ValidateCoordinates
  rw [if_neg h1, if_neg h2]

lemma validateInMozambique_isNone (lat lon : ℚ) :
    (Geo.ValidateInMozambique lat lon).isNone = true ↔
      (Geo.MozambiqueMinLat ≤ lat ∧ lat ≤ Geo.MozambiqueMaxLat ∧
        Geo.MozambiqueMinLon ≤ lon ∧ lon ≤ Geo.MozambiqueMaxLon) := by
  have c1 : Geo.MinLatitude < Geo.MozambiqueMinLat := by decide
  have c2 : Geo.MozambiqueMaxLat < Geo.MaxLatitude := by decide
  have c3 : Geo.MinLongitude < Geo.MozambiqueMinLon := by decide
  have c4 : Geo.MozambiqueMaxLon < Geo.MaxLongitude := by decide
  by_cases hb : Geo.MozambiqueMinLat ≤ lat ∧ lat ≤ Geo.MozambiqueMaxLat ∧
      Geo.MozambiqueMinLon ≤ lon ∧ lon ≤ Geo.MozambiqueMaxLon
  · obtain ⟨b1, b2, b3, b4⟩ := hb
    have hc : Geo.ValidateCoordinates lat lon = none :=
      validateCoordinates_eq_none lat lon
        (by rintro (h | h) <;> linarith) (by rintro (h | h) <;> linarith)
    unfold Geo.ValidateInMozambique
    rw [hc]
    rw [if_neg (by rintro (h | h | h | h) <;> linarith)]
    simp only [Option.isNone_none, true_iff]
    exact ⟨b1, b2, b3, b4⟩
  · have hC : lat < Geo.MozambiqueMinLat ∨ lat > Geo.MozambiqueMaxLat ∨
        lon < Geo.MozambiqueMinLon ∨ lon > Geo.MozambiqueMaxLon := by
      by_contra hC
      push_neg at hC
      exact hb ⟨hC.1, hC.2.1, hC.2.2.1, hC.2.2.2⟩
    unfold Geo.ValidateInMozambique
    by_cases hA : lat < Geo.MinLatitude ∨ lat > Geo.MaxLatitude
    · unfold Geo.ValidateCoordinates
      rw [if_pos hA]
      simpa using hb
    · by_cases hB : lon < Geo.MinLongitude ∨ lon > Geo.MaxLongitude
      · unfold Geo.ValidateCoordinates
        rw [if_neg hA, if_pos hB]
        simpa using hb
      · rw [validateCoordinates_eq_none lat lon hA hB, if_pos hC]
        simpa using hb

lemma wrap64_emod (x : Int) : wrap64 x % (2 ^ 64) = x % (2 ^ 64) := by
  unfold wrap64
  split
  · exact Int.emod_emod_of_dvd x dvd_rfl
  · rw [Int.sub_emod, Int.emod_self, sub_zero, Int.emod_emod_of_dvd x dvd_rfl,
      Int.emod_emod_of_dvd x dvd_rfl]

lemma wrap64_congr {x y : Int} (h : x % (2 ^ 64) = y % (2 ^ 64)) :
    wrap64 x = wrap64 y := by
  unfold wrap64
  rw [h]

lemma wrap64_eq_self {x : Int} (h0 : 0 ≤ x) (h1 : x < 2 ^ 63) : wrap64 x = x := by
  unfold wrap64
  have h2 : x % (2 ^ 64) = x := Int.emod_eq_of_lt h0 (by omega)
  rw [h2]
  exact if_pos h1

lemma char_digit_toNat {c : Char} (h : ('0' ≤ c && c ≤ '9') = true) :
    48 ≤ c.toNat ∧ c.toNat ≤ 57 := by
  simp only [Bool.and_eq_true, decide_eq_true_eq] at h
  obtain ⟨h1, h2⟩ := h
  rw [Char.le_def] at h1 h2
  exact ⟨h1, h2⟩

lemma parseFold_wrap (cs : List Char) (a : Nat) :
    cs.foldl
      (fun n c =>
        if '0' ≤ c && c ≤ '9' then wrap64 (n * 10 + ((c.toNat : Int) - '0'.toNat)) else n)
      (wrap64 (a : Int)) =
    wrap64 ((cs.foldl
      (fun n c => if '0' ≤ c && c ≤ '9' then n * 10 + (c.toNat - '0'.toNat) else n)
      a : Nat) : Int) := by
  induction cs generalizing a with
  | nil => rw [List.foldl_nil, List.foldl_nil]
  | cons c cs ih =>
    simp only [List.foldl_cons]
    by_cases hd : ('0' ≤ c && c ≤ '9') = true
    · rw [if_pos hd, if_pos hd]
      have h48 := (char_digit_toNat hd).1
      have hstep : wrap64 (wrap64 (a : Int) * 10 + ((c.toNat : Int) - '0'.toNat)) =
          wrap64 (((a * 10 + (c.toNat - '0'.toNat) : Nat)) : Int) := by
        apply wrap64_congr
        have hcast : ((a * 10 + (c.toNat - '0'.toNat) : Nat) : Int) =
            (a : Int) * 10 + ((c.toNat : Int) - '0'.toNat) := by
          have h0 : Char.toNat '0' = 48 := rfl
          rw [h0]
          omega
        rw [hcast]
        have hme : Int.ModEq (2 ^ 64) (wrap64 (a : Int)) (a : Int) := wrap64_emod (a : Int)
        exact (hme.mul_right 10).add_right _
      rw [hstep]
      exact ih _
    · rw [if_neg hd, if_neg hd]
      exact ih a

lemma parseIntParam_eq_wrap (s : String) :
    parseIntParam s = wrap64 ((specDigitsValue s : Nat) : Int) := by
  have h0 : (0 : Int) = wrap64 ((0 : Nat) : Int) := by decide
  unfold parseIntParam specDigitsValue
  rw [h0]
  exact parseFold_wrap s.data 0

lemma specFold_nondigits (cs : List Char) (a : Nat)
    (h : ∀ c ∈ cs, ¬('0' ≤ c ∧ c ≤ '9')) :
    cs.foldl (fun n c => if '0' ≤ c && c ≤ '9' then n * 10 + (c.toNat - '0'.toNat) else n)
      a = a := by
  induction cs generalizing a with
  | nil => rw [List.foldl_nil]
  | cons c cs ih =>
    rw [List.foldl_cons]
    have hc : ¬(('0' ≤ c && c ≤ '9') = true) := by
      simpa [Bool.and_eq_true, decide_eq_true_eq] using h c (by simp)
    rw [if_neg hc]
    exact ih a (fun c' hc' => h c' (List.mem_cons_of_mem _ hc'))

/-- C1 counterexample: the claim asserts every registered predicate returns
true on its field type's zero value, but `validateTxovaMoney` on a zero
int64, `validateTxovaRating` on a zero int, and `validateMzLocation` on a
zero-valued location struct all return false. -/
theorem emptyValue_composability_counterexample :
    Structval.validateTxovaMoney (GoVal.int IW.i64 0) = false ∧
    Structval.validateTxovaRating (GoVal.int IW.i 0) = false ∧
    Structval.validateMzLocation
      (GoVal.strukt [("Lat", GoVal.float64V (mkRat 0 1)),
        ("Lon", GoVal.float64V (mkRat 0 1))]) = false := by
  decide

/-- C1 (corrected): empty-value composability holds exactly for the
string-shaped predicates — mz_phone, mz_plate and txova_pin return true on
the empty string, leaving presence to the separate required rule — while
the numeric and location predicates txova_money, txova_rating and
mz_location return false on their zero values. -/
theorem emptyValue_composability_amended :
    Structval.validateMzPhone (GoVal.str "") = true ∧
    Structval.validateMzPlate (GoVal.str "") = true ∧
    Structval.validateTxovaPin (GoVal.str "") = true ∧
    Structval.validateTxovaMoney (GoVal.int IW.i64 0) = false ∧
    Structval.validateTxovaMoney (GoVal.uint UW.u64 0) = false ∧
    Structval.validateTxovaMoney (GoVal.float64V (mkRat 0 1)) = false ∧
    Structval.validateTxovaRating (GoVal.int IW.i 0) = false ∧
    Structval.validateTxovaRating (GoVal.uint UW.u 0) = false ∧
    Structval.validateMzLocation
      (GoVal.strukt [("Lat", GoVal.float64V (mkRat 0 1)),
        ("Lon", GoVal.float64V (mkRat 0 1))]) = false := by
  decide

/-- C2 (confirmed): mz_location dispatches on physical shape.  A record and
an ordered pair carrying the same (lat, lon) are accepted identically; a
pair is accepted exactly when it lies in the Mozambique bounding box; the
record `(lat: -25.95, lon: 32.5)` and the pair `[-25.95, 32.5]` are
accepted, `(lat: 0, lon: 0)` and a length-1 pair are rejected; the
latitude name priority prefers "Lat" over "lat"; any other shape, and a
record without usable float64 lat/lon fields, fails closed (and the
predicate is a total function, so it never panics). -/
theorem mzLocation_shape_dispatch :
    (∀ lat lon : ℚ,
      Structval.validateMzLocation
          (GoVal.strukt [("lat", GoVal.float64V lat), ("lon", GoVal.float64V lon)]) =
        Structval.validateMzLocation (GoVal.slice [GoVal.float64V lat, GoVal.float64V lon])) ∧
    (∀ lat lon : ℚ,
      Structval.validateMzLocation (GoVal.slice [GoVal.float64V lat, GoVal.float64V lon]) =
          true ↔
        (Geo.MozambiqueMinLat ≤ lat ∧ lat ≤ Geo.MozambiqueMaxLat ∧
          Geo.MozambiqueMinLon ≤ lon ∧ lon ≤ Geo.MozambiqueMaxLon)) ∧
    Structval.validateMzLocation
      (GoVal.strukt [("lat", GoVal.float64V (mkRat (-2595) 100)),
        ("lon", GoVal.float64V (mkRat 325 10))]) = true ∧
    Structval.validateMzLocation
      (GoVal.slice [GoVal.float64V (mkRat (-2595) 100),
        GoVal.float64V (mkRat 325 10)]) = true ∧
    Structval.validateMzLocation
      (GoVal.strukt [("lat", GoVal.float64V (mkRat 0 1)),
        ("lon", GoVal.float64V (mkRat 0 1))]) = false ∧
    (∀ e : GoVal, Structval.validateMzLocation (GoVal.slice [e]) = false) ∧
    (∀ s, Structval.validateMzLocation (GoVal.str s) = false) ∧
    (∀ w n, Structval.validateMzLocation (GoVal.int w n) = false) ∧
    Structval.validateMzLocation (GoVal.strukt [("name", GoVal.str "x")]) = false ∧
    Structval.validateMzLocation
      (GoVal.strukt [("lat", GoVal.float64V (mkRat 0 1)),
        ("Lat", GoVal.float64V (mkRat (-2595) 100)),
        ("Lon", GoVal.float64V (mkRat 325 10))]) = true := by
  refine ⟨fun _ _ => rfl, fun lat lon => ?_, by decide, by decide, by decide,
    fun _ => rfl, fun _ => rfl, fun _ _ => rfl, by decide, by decide⟩
  show (Geo.ValidateInMozambique lat lon).isNone = true ↔ _
  exact validateInMozambique_isNone lat lon

/-- C3 (confirmed): the part_004 translator is total by construction, and
on any rule tag outside the mapped set it produces exactly the
InvalidFormat failure whose message contains the raw tag name. -/
theorem translateError_fallback_total :
    ∀ fe : FieldError, fe.tag ∉ mappedTags →
      Structval.translateError fe =
          Valerrors.InvalidFormatWithValue fe.field fe.tag fe.value ∧
        (Structval.translateError fe).Code = Valerrors.ErrorCode.invalidFormat ∧
        ∃ a b, (Structval.translateError fe).Message = a ++ fe.tag ++ b := by
  intro fe h
  simp only [mappedTags, List.mem_cons, List.not_mem_nil, or_false] at h
  push_neg at h
  obtain ⟨h1, h2, h3, h4, h5, h6, h7, h8, h9, h10, h11, h12, h13, h14, h15, h16, h17⟩ := h
  have he : Structval.translateError fe =
      Valerrors.InvalidFormatWithValue fe.field fe.tag fe.value := by
    unfold Structval.translateError Structval.translateSpecialTag
      Structval.formatTagExpectations Structval.isLowerBoundTag Structval.isUpperBoundTag
    simp [h1, h2, h3, h4, h5, h6, h7, h8, h9, h10, h11, h12, h13, h14, h15, h16, h17]
  refine ⟨he, by rw [he]; rfl, ⟨fe.field ++ " has invalid format, expected ", "", ?_⟩⟩
  rw [he]
  simp [Valerrors.InvalidFormatWithValue]

/-- Witness for C3's theorem at the unmapped tag "uuid4". -/
theorem translateError_fallback_total_witness :
    Structval.translateError ⟨"f", "uuid4", "", GoVal.str "x"⟩ =
        Valerrors.InvalidFormatWithValue "f" "uuid4" (GoVal.str "x") ∧
      (Structval.translateError ⟨"f", "uuid4", "", GoVal.str "x"⟩).Code =
        Valerrors.ErrorCode.invalidFormat ∧
      ∃ a b,
        (Structval.translateError ⟨"f", "uuid4", "", GoVal.str "x"⟩).Message =
          a ++ "uuid4" ++ b :=
  translateError_fallback_total ⟨"f", "uuid4", "", GoVal.str "x"⟩ (by decide)

/-- C4 (confirmed): txova_rating is true exactly on integer values in the
inclusive range 1..5, across every signed and unsigned width; non-numeric
kinds fail, and a huge uint64 value is rejected without wrapping. -/
theorem txovaRating_range_widths :
    (∀ (w : IW) (n : Int),
      Structval.validateTxovaRating (GoVal.int w n) = decide (1 ≤ n ∧ n ≤ 5)) ∧
    (∀ (w : UW) (n : Nat),
      Structval.validateTxovaRating (GoVal.uint w n) = decide (1 ≤ n ∧ n ≤ 5)) ∧
    (∀ s, Structval.validateTxovaRating (GoVal.str s) = false) ∧
    (∀ q, Structval.validateTxovaRating (GoVal.float64V q) = false) ∧
    (∀ fields, Structval.validateTxovaRating (GoVal.strukt fields) = false) ∧
    Structval.validateTxovaRating (GoVal.uint UW.u64 (2 ^ 64 - 1)) = false := by
  refine ⟨fun _ n => ?_, fun _ n => ?_, fun _ => rfl, fun _ => rfl, fun _ => rfl,
    by decide⟩
  · show (if n < 0 ∨ n > 5 then false else (Rating.ValidateRating n).isNone) = _
    split_ifs with hn
    · symm
      simp only [decide_eq_false_iff_not]
      omega
    · rw [validateRating_isNone]
  · show (if n > 5 then false else (Rating.ValidateRating ((n : Nat) : Int)).isNone) = _
    split_ifs with hn
    · symm
      simp only [decide_eq_false_iff_not]
      omega
    · rw [validateRating_isNone]
      exact decide_eq_decide.mpr (by omega)

/-- C5 (confirmed): txova_money is true exactly on strictly positive
values, across every signed width, unsigned width and floating
representation; any other representation fails. -/
theorem txovaMoney_positive_widths :
    (∀ (w : IW) (n : Int),
      Structval.validateTxovaMoney (GoVal.int w n) = decide (0 < n)) ∧
    (∀ (w : UW) (n : Nat),
      Structval.validateTxovaMoney (GoVal.uint w n) = decide (0 < n)) ∧
    (∀ q : ℚ, Structval.validateTxovaMoney (GoVal.float64V q) = decide (0 < q)) ∧
    (∀ q : ℚ, Structval.validateTxovaMoney (GoVal.float32V q) = decide (0 < q)) ∧
    (∀ s, Structval.validateTxovaMoney (GoVal.str s) = false) ∧
    (∀ s, Structval.validateTxovaMoney (GoVal.namedStr s) = false) ∧
    (∀ fields, Structval.validateTxovaMoney (GoVal.strukt fields) = false) ∧
    Structval.validateTxovaMoney GoVal.other = false :=
  ⟨fun _ _ => rfl, fun _ _ => rfl, fun _ => rfl, fun _ => rfl, fun _ => rfl,
    fun _ => rfl, fun _ => rfl, rfl⟩

/-- C6 counterexample: a failed min rule on a String-kinded field whose
offending value is of a named string type is translated to OutOfRange, not
to the TooShort failure the claim requires for every text-kinded field. -/
theorem translateMin_namedString_counterexample :
    (GoVal.namedStr "ab").kind = GoKind.string ∧
    (Structval.translateError ⟨"pin", "min", "4", GoVal.namedStr "ab"⟩).Code =
      Valerrors.ErrorCode.outOfRange ∧
    Structval.translateError ⟨"pin", "min", "4", GoVal.namedStr "ab"⟩ ≠
      Valerrors.TooShortWithValue "pin" (parseIntParam "4") (goLen "ab") := by
  refine ⟨rfl, rfl, fun h => ?_⟩
  have hc := congrArg Valerrors.ValidationError.Code h
  revert hc
  decide

/-- C6 (corrected): a failed min rule yields TooShort(field, parsed
parameter, actual byte length) exactly when the offending value's dynamic
type is the plain string type; on every other value — including
String-kinded values of a named string type — it yields
OutOfRange(field, param, "∞", value); symmetrically for max with TooLong
and OutOfRange(field, "-∞", param, value). -/
theorem minMaxTranslation_amended :
    ∀ fe : FieldError,
      (fe.tag = "min" →
        Structval.translateError fe =
          match fe.value with
          | GoVal.str s =>
            Valerrors.TooShortWithValue fe.field (parseIntParam fe.param) (goLen s)
          | _ =>
            Valerrors.OutOfRangeWithValue fe.field (.str fe.param) (.str "∞") fe.value) ∧
      (fe.tag = "max" →
        Structval.translateError fe =
          match fe.value with
          | GoVal.str s =>
            Valerrors.TooLongWithValue fe.field (parseIntParam fe.param) (goLen s)
          | _ =>
            Valerrors.OutOfRangeWithValue fe.field (.str "-∞") (.str fe.param) fe.value) := by
  rintro ⟨f, t, p, v⟩
  constructor
  · intro h
    simp only at h
    subst h
    cases v <;>
      simp [Structval.translateError, Structval.translateSpecialTag,
        Structval.translateMinTag, GoVal.kind]
  · intro h
    simp only at h
    subst h
    cases v <;>
      simp [Structval.translateError, Structval.translateSpecialTag,
        Structval.translateMaxTag, GoVal.kind]

/-- Witness for C6's amended theorem at a plain-string min failure and a
numeric max failure. -/
theorem minMaxTranslation_amended_witness :
    Structval.translateError ⟨"p", "min", "4", GoVal.str "ab"⟩ =
        Valerrors.TooShortWithValue "p" (parseIntParam "4") (goLen "ab") ∧
      Structval.translateError ⟨"q", "max", "3", GoVal.int IW.i 7⟩ =
        Valerrors.OutOfRangeWithValue "q" (.str "-∞") (.str "3") (GoVal.int IW.i 7) :=
  ⟨(minMaxTranslation_amended ⟨"p", "min", "4", GoVal.str "ab"⟩).1 rfl,
   (minMaxTranslation_amended ⟨"q", "max", "3", GoVal.int IW.i 7⟩).2 rfl⟩

/-- C7 counterexample: on a 19-digit parameter whose digit value is 2^63,
Go int arithmetic overflows, so parseIntParam returns a negative number
instead of the non-negative concatenated digit value. -/
theorem parseIntParam_overflow_counterexample :
    parseIntParam "9223372036854775808" < 0 ∧
    parseIntParam "9223372036854775808" ≠
      ((specDigitsValue "9223372036854775808" : Nat) : Int) := by
  decide

/-- C7 (corrected): parseIntParam is total and never raises; it returns the
64-bit two's-complement wrap of the integer formed by concatenating the
decimal digits — equal to that non-negative integer whenever it is below
2^63 — and returns 0 when the string has no digits. -/
theorem parseIntParam_amended :
    ∀ s : String,
      parseIntParam s = wrap64 ((specDigitsValue s : Nat) : Int) ∧
      (specDigitsValue s < 2 ^ 63 →
        parseIntParam s = ((specDigitsValue s : Nat) : Int)) ∧
      ((∀ c ∈ s.data, ¬('0' ≤ c ∧ c ≤ '9')) → parseIntParam s = 0) := by
  intro s
  have h1 := parseIntParam_eq_wrap s
  refine ⟨h1, fun hlt => ?_, fun hnd => ?_⟩
  · rw [h1]
    exact wrap64_eq_self (Int.natCast_nonneg _) (by exact_mod_cast hlt)
  · have hz : specDigitsValue s = 0 := specFold_nondigits s.data 0 hnd
    rw [h1, hz]
    decide

/-- Witness for C7's amended theorem at a digit parameter and a digit-free
parameter. -/
theorem parseIntParam_amended_witness :
    parseIntParam "42" = ((specDigitsValue "42" : Nat) : Int) ∧
      parseIntParam "x.y" = 0 :=
  ⟨(parseIntParam_amended "42").2.1 (by decide),
   (parseIntParam_amended "x.y").2.2 (by decide)⟩

/-- C8 (confirmed): the registered tag-name function is a pure total
function; it returns the wire name (the json tag up to the first comma)
when that is neither the opt-out sentinel "-" nor empty, falls back to the
structural field name otherwise, and never returns the empty string when
the structural name is non-empty. -/
theorem tagNameFunc_policy :
    ∀ jsonTag fldName : String,
      (firstCommaPart jsonTag ≠ "-" → firstCommaPart jsonTag ≠ "" →
        Structval.tagNameFunc jsonTag fldName = firstCommaPart jsonTag) ∧
      ((firstCommaPart jsonTag = "-" ∨ firstCommaPart jsonTag = "") →
        Structval.tagNameFunc jsonTag fldName = fldName) ∧
      (fldName ≠ "" → Structval.tagNameFunc jsonTag fldName ≠ "") := by
  intro jt fn
  unfold Structval.tagNameFunc
  by_cases h1 : firstCommaPart jt = "-" <;> by_cases h2 : firstCommaPart jt = "" <;>
    simp [h1, h2]

/-- Witness for C8's theorem at a populated json tag, the opt-out sentinel,
and a missing tag. -/
theorem tagNameFunc_policy_witness :
    Structval.tagNameFunc "phone,omitempty" "Phone" = firstCommaPart "phone,omitempty" ∧
      Structval.tagNameFunc "-" "Phone" = "Phone" ∧
      Structval.tagNameFunc "" "Phone" ≠ "" :=
  ⟨(tagNameFunc_policy "phone,omitempty" "Phone").1 (by decide) (by decide),
   (tagNameFunc_policy "-" "Phone").2.1 (Or.inl (by decide)),
   (tagNameFunc_policy "" "Phone").2.2 (by decide)⟩

/-- C9 (confirmed, against the spec-modelled serialization): an empty (or
nil) FailureCollection marshals to the empty array, every entry marshals to
an object with keys field, code, message, plus a value key exactly when an
offending value was captured (key absence, not null). -/
theorem marshal_value_key_policy :
    Valerrors.marshalValidationErrors [] = Json.arr [] ∧
    (∀ e : Valerrors.ValidationError,
      (Valerrors.ValidationError.marshalJSON e).objKeys =
        ["field", "code", "message"] ++
          (match e.Value with | some _ => ["value"] | none => [])) ∧
    (∀ e : Valerrors.ValidationError,
      "value" ∈ (Valerrors.ValidationError.marshalJSON e).objKeys ↔ e.Value ≠ none) := by
  refine ⟨rfl, fun e => ?_, fun e => ?_⟩
  · obtain ⟨f, c, m, v⟩ := e
    cases v <;> simp [Valerrors.ValidationError.marshalJSON, Json.objKeys]
  · obtain ⟨f, c, m, v⟩ := e
    cases v <;> simp [Valerrors.ValidationError.marshalJSON, Json.objKeys]

lemma rating_old_eq_new (v : GoVal) (h : uintInRange v) :
    StructvalOld.validateTxovaRating v = Structval.validateTxovaRating v := by
  cases v with
  | int w n =>
    simp only [StructvalOld.validateTxovaRating, Structval.validateTxovaRating,
      validateRating_isNone]
    split_ifs with hn
    · simp only [decide_eq_false_iff_not]
      omega
    · rfl
  | uint w n =>
    have hb : n < 2 ^ 64 := h
    simp only [StructvalOld.validateTxovaRating, Structval.validateTxovaRating,
      validateRating_isNone, int64OfUInt64]
    split_ifs with h1 h2 h2
    · simp only [decide_eq_false_iff_not]
      omega
    · rfl
    · simp only [decide_eq_false_iff_not]
      omega
    · exact decide_eq_decide.mpr (by omega)
  | str s => rfl
  | namedStr s => rfl
  | float64V q => rfl
  | float32V q => rfl
  | strukt fs => rfl
  | slice es => rfl
  | array es => rfl
  | other => rfl

lemma translate_old_eq_new (fe : FieldError) :
    StructvalOld.translateError fe = some (Structval.translateError fe) ∨
      (StructvalOld.translateError fe = none ∧ (fe.tag = "min" ∨ fe.tag = "max") ∧
        fe.value.kind = GoKind.string ∧ ∀ s, fe.value ≠ GoVal.str s) := by
  obtain ⟨f, t, p, v⟩ := fe
  simp only
  by_cases h1 : t = "required"
  · subst h1
    left
    simp [StructvalOld.translateError, Structval.translateError, Structval.translateSpecialTag]
  by_cases h2 : t = "min"
  · subst h2
    cases v with
    | str s =>
      left
      simp [StructvalOld.translateError, Structval.translateError,
        Structval.translateSpecialTag, Structval.translateMinTag, GoVal.kind]
    | namedStr s =>
      right
      refine ⟨?_, Or.inl rfl, rfl, ?_⟩
      · simp [StructvalOld.translateError, GoVal.kind]
      · intro s' hne
        cases hne
    | _ =>
      left
      simp [StructvalOld.translateError, Structval.translateError,
        Structval.translateSpecialTag, Structval.translateMinTag, GoVal.kind]
  by_cases h3 : t = "max"
  · subst h3
    cases v with
    | str s =>
      left
      simp [StructvalOld.translateError, Structval.translateError,
        Structval.translateSpecialTag, Structval.translateMaxTag, GoVal.kind]
    | namedStr s =>
      right
      refine ⟨?_, Or.inr rfl, rfl, ?_⟩
      · simp [StructvalOld.translateError, GoVal.kind]
      · intro s' hne
        cases hne
    | _ =>
      left
      simp [StructvalOld.translateError, Structval.translateError,
        Structval.translateSpecialTag, Structval.translateMaxTag, GoVal.kind]
  all_goals left
  by_cases h4 : t = "len"
  · subst h4
    simp [StructvalOld.translateError, Structval.translateError, Structval.translateSpecialTag]
  by_cases h5 : t = "email"
  · subst h5
    simp [StructvalOld.translateError, Structval.translateError, Structval.translateSpecialTag,
      Structval.formatTagExpectations]
  by_cases h6 : t = "url"
  · subst h6
    simp [StructvalOld.translateError, Structval.translateError, Structval.translateSpecialTag,
      Structval.formatTagExpectations]
  by_cases h7 : t = "oneof"
  · subst h7
    simp [StructvalOld.translateError, Structval.translateError, Structval.translateSpecialTag]
  by_cases h8 : t = "gt"
  · subst h8
    simp [StructvalOld.translateError, Structval.translateError, Structval.translateSpecialTag,
      Structval.formatTagExpectations, Structval.isLowerBoundTag]
  by_cases h9 : t = "gte"
  · subst h9
    simp [StructvalOld.translateError, Structval.translateError, Structval.translateSpecialTag,
      Structval.formatTagExpectations, Structval.isLowerBoundTag]
  by_cases h10 : t = "lt"
  · subst h10
    simp [StructvalOld.translateError, Structval.translateError, Structval.translateSpecialTag,
      Structval.formatTagExpectations, Structval.isLowerBoundTag, Structval.isUpperBoundTag]
  by_cases h11 : t = "lte"
  · subst h11
    simp [StructvalOld.translateError, Structval.translateError, Structval.translateSpecialTag,
      Structval.formatTagExpectations, Structval.isLowerBoundTag, Structval.isUpperBoundTag]
  by_cases h12 : t = "mz_phone"
  · subst h12
    simp [StructvalOld.translateError, Structval.translateError, Structval.translateSpecialTag,
      Structval.formatTagExpectations]
  by_cases h13 : t = "mz_plate"
  · subst h13
    simp [StructvalOld.translateError, Structval.translateError, Structval.translateSpecialTag,
      Structval.formatTagExpectations]
  by_cases h14 : t = "mz_location"
  · subst h14
    simp [StructvalOld.translateError, Structval.translateError, Structval.translateSpecialTag]
  by_cases h15 : t = "txova_pin"
  · subst h15
    simp [StructvalOld.translateError, Structval.translateError, Structval.translateSpecialTag,
      Structval.formatTagExpectations]
  by_cases h16 : t = "txova_money"
  · subst h16
    simp [StructvalOld.translateError, Structval.translateError, Structval.translateSpecialTag]
  by_cases h17 : t = "txova_rating"
  · subst h17
    simp [StructvalOld.translateError, Structval.translateError, Structval.translateSpecialTag]
  simp [StructvalOld.translateError, Structval.translateError, Structval.translateSpecialTag,
    Structval.formatTagExpectations, Structval.isLowerBoundTag, Structval.isUpperBoundTag,
    h1, h2, h3, h4, h5, h6, h7, h8, h9, h10, h11, h12, h13, h14, h15, h16, h17]

/-- C10 counterexample: on a min failure over a String-kinded field whose
value is of a named string type, the part_003 translator panics on the
`value.(string)` assertion (modelled as none) while the part_004 translator
returns a failure, so the two versions are not extensionally equal. -/
theorem translateError_versions_counterexample :
    StructvalOld.translateError ⟨"pin", "min", "4", GoVal.namedStr "ab"⟩ = none ∧
    StructvalOld.translateError ⟨"pin", "min", "4", GoVal.namedStr "ab"⟩ ≠
      some (Structval.translateError ⟨"pin", "min", "4", GoVal.namedStr "ab"⟩) :=
  ⟨rfl, fun h => Option.noConfusion h⟩

/-- C10 (corrected): the two validateTxovaRating predicates agree on every
value (given the uint64 range invariant and a 64-bit Go int), and the two
translateError functions agree on every failure record except min and max
failures on a String-kinded value that is not a plain string, where the
part_003 translator panics and the part_004 translator returns OutOfRange. -/
theorem translateError_versions_amended :
    (∀ fe : FieldError,
      StructvalOld.translateError fe = some (Structval.translateError fe) ∨
        (StructvalOld.translateError fe = none ∧ (fe.tag = "min" ∨ fe.tag = "max") ∧
          fe.value.kind = GoKind.string ∧ ∀ s, fe.value ≠ GoVal.str s)) ∧
    (∀ v : GoVal, uintInRange v →
      StructvalOld.validateTxovaRating v = Structval.validateTxovaRating v) :=
  ⟨translate_old_eq_new, rating_old_eq_new⟩

/-- Witness for C10's amended theorem at a concrete uint64 rating value. -/
theorem translateError_versions_amended_witness :
    StructvalOld.validateTxovaRating (GoVal.uint UW.u64 7) =
      Structval.validateTxovaRating (GoVal.uint UW.u64 7) :=
  translateError_versions_amended.2 (GoVal.uint UW.u64 7) (by unfold uintInRange; decide)
